import Mathlib

/-!
Verification of the jobtrack-automate automation engine: a shallow
embedding of the application status state machine, the duplicate and
rate guard, the orchestrator task with its retry policy, and the
CAPTCHA manual-resolution wait, together with theorems settling the
frozen claims about them.
-/

namespace JobTrack

/-- A job listing row, from applications/models.py class Job.
Only the fields the claims mention are kept: the primary key and the
external job URL (a blank URLField defaults to the empty string). -/
structure Job where
  jobId : Nat
  job_url : String
  deriving Repr, DecidableEq

/-- An application row, from applications/models.py class Application.
The foreign key to Job is embedded as the Job row itself; timestamps
are abstract Nat instants and a null DateTimeField is none. -/
structure Application where
  pk : Nat
  userId : Nat
  job : Job
  status : String
  applied_date : Option Nat
  application_method : String
  deriving Repr, DecidableEq

/-- An append-only activity row, from applications/models.py class
ApplicationActivity. -/
structure ApplicationActivity where
  applicationPk : Nat
  activity_type : String
  description : String
  created_by : Option Nat
  deriving Repr, DecidableEq

/-- The allowed moves out of each status, from VALID_TRANSITIONS in
applications/services/status_tracker.py; a status outside the table
yields the empty list, as dict.get with default does. -/
def VALID_TRANSITIONS (status : String) : List String :=
  if status = "saved" then ["applied", "withdrawn"]
  else if status = "applied" then ["screening", "interview_scheduled", "rejected", "withdrawn"]
  else if status = "screening" then ["interview_scheduled", "rejected", "withdrawn"]
  else if status = "interview_scheduled" then ["interviewed", "rejected", "withdrawn"]
  else if status = "interviewed" then ["offer", "rejected", "withdrawn"]
  else if status = "offer" then ["accepted", "rejected", "withdrawn"]
  else if status = "rejected" then []
  else if status = "accepted" then ["withdrawn"]
  else if status = "withdrawn" then []
  else []

/-- StatusTracker.is_valid_transition from status_tracker.py: equal
statuses are always allowed, otherwise membership in the table row. -/
def is_valid_transition (current_status new_status : String) : Bool :=
  if current_status = new_status then true
  else (VALID_TRANSITIONS current_status).contains new_status

/-- The nine statuses of Application.STATUS_CHOICES in models.py. -/
def STATUSES : List String :=
  ["saved", "applied", "screening", "interview_scheduled", "interviewed",
   "offer", "rejected", "accepted", "withdrawn"]

/-- The edge table written in section 4.1 of the spec, kept separate
from the table embedded from the source so the two can be compared. -/
def SPEC_EDGES : List (String × String) :=
  [("saved", "applied"), ("saved", "withdrawn"),
   ("applied", "screening"), ("applied", "interview_scheduled"),
   ("applied", "rejected"), ("applied", "withdrawn"),
   ("screening", "interview_scheduled"), ("screening", "rejected"),
   ("screening", "withdrawn"),
   ("interview_scheduled", "interviewed"), ("interview_scheduled", "rejected"),
   ("interview_scheduled", "withdrawn"),
   ("interviewed", "offer"), ("interviewed", "rejected"),
   ("interviewed", "withdrawn"),
   ("offer", "accepted"), ("offer", "rejected"), ("offer", "withdrawn"),
   ("accepted", "withdrawn")]

/-- Application.save() on an already persisted row, including the
pre_save receiver log_status_change of applications/signals.py lines
26 to 47, registered in ApplicationsConfig.ready(): the receiver
fetches the old row from the database (here the row as it stood
before the call, old), and when the status differs from the one being
saved it appends one status_change activity whose created_by is the
owning user of the Application.  The post_save receiver only acts on
newly created rows and is inert here. -/
def save_application (old inst : Application)
    (activities : List ApplicationActivity) : List ApplicationActivity :=
  if old.status ≠ inst.status then
    activities ++ [⟨inst.pk, "status_change",
      "Status changed from " ++ old.status ++ " to " ++ inst.status,
      some inst.userId⟩]
  else activities

/-- Result of StatusTracker.transition: the returned boolean together
with the application row and activity table after the call. -/
structure TransitionResult where
  ok : Bool
  application : Application
  activities : List ApplicationActivity
  deriving Repr, DecidableEq

/-- StatusTracker.transition from status_tracker.py lines 47 to 88:
reject and leave everything untouched when the move is not valid;
otherwise write the new status through application.save(), which
fires the pre_save receiver, and then explicitly append one further
status_change activity whose description records the old to new move
and any notes.  The function never touches applied_date. -/
def StatusTracker.transition (application : Application)
    (activities : List ApplicationActivity)
    (new_status : String) (user : Option Nat) (notes : String) :
    TransitionResult :=
  let current := application.status
  if ¬ is_valid_transition current new_status then
    ⟨false, application, activities⟩
  else
    let old_status := application.status
    let updated := { application with status := new_status }
    let saved := save_application application updated activities
    let base := s!"Status changed from {old_status} to {new_status}"
    let description := if notes ≠ "" then base ++ s!". Notes: {notes}" else base
    ⟨true, updated,
      saved ++ [⟨application.pk, "status_change", description, user⟩]⟩

/-- ApplicationManager.update_status from application_manager.py lines
83 to 116: writes the requested status with no validity check, stamps
applied_date with the current time when moving to applied and no date
is set yet, saves the row (firing the pre_save receiver), and then
explicitly appends one further status_change activity. -/
def ApplicationManager.update_status (application : Application)
    (activities : List ApplicationActivity)
    (new_status : String) (user : Nat) (notes : String) (now : Nat) :
    Application × List ApplicationActivity :=
  let old_status := application.status
  let step1 := { application with status := new_status }
  let step2 :=
    if new_status = "applied" ∧ step1.applied_date = none then
      { step1 with applied_date := some now }
    else step1
  let saved := save_application application step2 activities
  let description := (s!"Status changed from {old_status} to {new_status}. " ++ notes).trim
  (step2,
    saved ++ [⟨application.pk, "status_change", description, some user⟩])

/-- Application.mark_as_applied from models.py lines 217 to 221: sets
the status to applied, overwrites applied_date unconditionally, and
saves, firing the pre_save receiver. -/
def Application.mark_as_applied (application : Application)
    (activities : List ApplicationActivity) (now : Nat) :
    Application × List ApplicationActivity :=
  let updated := { application with status := "applied", applied_date := some now }
  (updated, save_application application updated activities)

/-- The two input shapes accepted by ApplicationManager.check_duplicate:
a Job object or a job URL string. -/
inductive JobOrUrl where
  | jobObj (j : Job)
  | url (u : String)
  deriving Repr, DecidableEq

/-- ApplicationManager.check_duplicate from application_manager.py
lines 118 to 138.  A URL string input returns false at once when the
string is empty, otherwise asks whether some Application of this user
references a Job with that job_url; a Job object input asks whether
some Application of this user references that Job row (by primary
key, as the Django equality filter on a foreign key does). -/
def check_duplicate (apps : List Application) (user : Nat)
    (job_or_url : JobOrUrl) : Bool :=
  match job_or_url with
  | .url u =>
      if u = "" then false
      else apps.any fun a => a.userId == user && a.job.job_url == u
  | .jobObj j =>
      apps.any fun a => a.userId == user && a.job.jobId == j.jobId

/-- The board identifiers with a registered handler, from the handlers
dict in _get_site_handler of tasks/automation_tasks.py. -/
def SUPPORTED_BOARDS : List String := ["pnet", "careers24", "linkedin", "indeed"]

/-- The result dict built by apply_to_job_task. -/
structure TaskResult where
  success : Bool
  message : String
  job_url : String
  job_board : String
  deriving Repr, DecidableEq

/-- One attempt of the task body either returns a result dict or lets
an unexpected exception escape to the celery retry machinery; either
way the number of browser sessions opened during the attempt is
recorded. -/
inductive BodyOutcome where
  | finished (r : TaskResult) (browserSessions : Nat)
  | raised (exc : String) (browserSessions : Nat)
  deriving Repr, DecidableEq

/-- The environment of one apply_to_job_task invocation: the task
arguments together with the outcome of each external collaborator
call the body makes (user lookup, daily count, settings, CV
resolution, and the site handler).  applyOutcome none stands for an
unexpected exception escaping the automation step. -/
structure TaskEnv where
  userId : Nat
  job_url : String
  job_board : String
  userExists : Bool
  dailyCount : Nat
  maxDaily : Nat
  cvPath : Option String
  dryRun : Bool
  applyOutcome : Option Bool
  deriving Repr, DecidableEq

/-- One attempt of apply_to_job_task from tasks/automation_tasks.py
lines 39 to 124, threading the Application table through the call.
The guard checks run in source order: user lookup, duplicate check,
daily cap, CV resolution, dry run, handler selection; only then is a
browser session opened and the handler invoked.  The body never
writes the Application table, which is returned unchanged on every
path. -/
def apply_to_job_task_body (env : TaskEnv) (apps : List Application) :
    BodyOutcome × List Application :=
  let blank : TaskResult :=
    ⟨false, "", env.job_url, env.job_board⟩
  if ¬ env.userExists then
    (.finished { blank with message := "User not found" } 0, apps)
  else if check_duplicate apps env.userId (.url env.job_url) then
    (.finished { blank with message := "Already applied to this job" } 0, apps)
  else if env.maxDaily ≤ env.dailyCount then
    (.finished { blank with message :=
      "Daily limit reached (" ++ toString env.maxDaily ++ " applications)" } 0, apps)
  else
    match env.cvPath with
    | none =>
        (.finished { blank with message := "No CV found. Upload a CV first." } 0, apps)
    | some _ =>
        if env.dryRun then
          (.finished ⟨true, "Dry run completed - no application submitted",
            env.job_url, env.job_board⟩ 0, apps)
        else if ¬ SUPPORTED_BOARDS.contains env.job_board then
          (.finished { blank with message :=
            "Unsupported job board: " ++ env.job_board } 0, apps)
        else
          match env.applyOutcome with
          | none => (.raised "exception" 1, apps)
          | some true =>
              (.finished ⟨true, "Application submitted successfully",
                env.job_url, env.job_board⟩ 1, apps)
          | some false =>
              (.finished ⟨false, "Application submission could not be verified",
                env.job_url, env.job_board⟩ 1, apps)

/-- The observable outcome of running the task through the celery
retry machinery: the final result dict, the number of body attempts
made, the backoff delays slept between attempts, the total number of
browser sessions opened, and the final Application table. -/
structure RunOutcome where
  result : TaskResult
  attempts : Nat
  delays : List Nat
  browserSessions : Nat
  finalApps : List Application
  deriving Repr, DecidableEq

/-- The celery driver for a task declared with bind=True, max_retries=3
and default_retry_delay=60: retriesLeft counts the retries the budget
still allows.  A body attempt that returns a result ends the run; an
attempt that raises is retried after a 60 second delay while retries
remain, and once the budget is exhausted the exception handler of the
body returns the failure dict built from the exception text. -/
def apply_to_job_task_run (env : TaskEnv) (apps : List Application) :
    Nat → RunOutcome
  | 0 =>
      match apply_to_job_task_body env apps with
      | (.finished r b, apps2) => ⟨r, 1, [], b, apps2⟩
      | (.raised e b, apps2) =>
          (⟨⟨false, "Task failed: " ++ e, env.job_url, env.job_board⟩,
            1, [], b, apps2⟩)
  | n + 1 =>
      match apply_to_job_task_body env apps with
      | (.finished r b, apps2) => ⟨r, 1, [], b, apps2⟩
      | (.raised _ b, apps2) =>
          let rest := apply_to_job_task_run env apps2 n
          ⟨rest.result, rest.attempts + 1, 60 :: rest.delays,
            b + rest.browserSessions, rest.finalApps⟩

/-- apply_to_job_task as invoked: shared_task with max_retries = 3. -/
def apply_to_job_task (env : TaskEnv) (apps : List Application) : RunOutcome :=
  apply_to_job_task_run env apps 3

/-- The polling loop of CaptchaSolver.wait_for_manual_solve from
captcha_solver.py lines 71 to 79: while the elapsed time is below the
timeout, probe the page; return success the moment the marker is
gone, otherwise sleep two seconds and retry; once the timeout has
elapsed return failure.  The page is modelled as the presence of a
visible CAPTCHA marker at each elapsed second, and the pair returned
is the result together with the elapsed time on return. -/
def waitLoop (present : Nat → Bool) (timeout elapsed : Nat) : Bool × Nat :=
  if h : elapsed < timeout then
    if present elapsed = false then (true, elapsed)
    else waitLoop present timeout (elapsed + 2)
  else (false, elapsed)
  termination_by timeout - elapsed
  decreasing_by omega

/-- CaptchaSolver.wait_for_manual_solve from captcha_solver.py lines
53 to 79: an immediate success without any waiting when no marker is
present on entry, otherwise the bounded polling loop. -/
def wait_for_manual_solve (present : Nat → Bool) (timeout : Nat) :
    Bool × Nat :=
  if present 0 = false then (true, 0)
  else waitLoop present timeout 0

/-- A validity verdict of the source table implies membership in the
spec table of section 4.1 (or an identity pair). -/
theorem valid_transition_edge (s1 s2 : String)
    (h : is_valid_transition s1 s2 = true) :
    s1 = s2 ∨ (s1, s2) ∈ SPEC_EDGES := by
  by_cases he : s1 = s2
  · exact Or.inl he
  · right
    unfold is_valid_transition at h
    rw [if_neg he] at h
    have hm : s2 ∈ VALID_TRANSITIONS s1 := by
      simpa using h
    unfold VALID_TRANSITIONS at hm
    split_ifs at hm with h1 h2 h3 h4 h5 h6 h7 h8 h9 <;>
      first
        | exact absurd hm (List.not_mem_nil s2)
        | · subst_vars
            simp only [List.mem_cons, List.not_mem_nil, or_false] at hm
            rcases hm with rfl | rfl | rfl | rfl <;> decide

/-- C1: the claim quantifies over the three status-writing operations,
but ApplicationManager.update_status performs no validity check: at a
concrete Application in the terminal status rejected it writes offer,
although (rejected, offer) is not a table edge and the statuses
differ.  This closed theorem refutes the claim at that input. -/
theorem C1_counterexample :
    (ApplicationManager.update_status
      ⟨11, 7, ⟨1, "http://a"⟩, "rejected", none, "manual"⟩
      [] "offer" 1 "" 99).1.status = "offer"
    ∧ is_valid_transition "rejected" "offer" = false
    ∧ "rejected" ≠ "offer" := by
  refine ⟨rfl, by decide, by decide⟩

/-- C1 amended: of the three operations only StatusTracker.transition
enforces the table: a rejected call leaves the status unchanged, and
an accepted call moves the status along an identity pair or an edge
of the section 4.1 table. -/
theorem C1_amended (application : Application)
    (acts : List ApplicationActivity) (new_status : String)
    (user : Option Nat) (notes : String) :
    ((StatusTracker.transition application acts new_status user notes).ok = false →
      (StatusTracker.transition application acts new_status user notes).application.status
        = application.status)
    ∧ ((StatusTracker.transition application acts new_status user notes).ok = true →
      application.status = new_status
        ∨ (application.status, new_status) ∈ SPEC_EDGES) := by
  unfold StatusTracker.transition
  by_cases hv : is_valid_transition application.status new_status = true
  · constructor
    · intro hok
      simp [hv] at hok
    · intro _
      exact valid_transition_edge application.status new_status hv
  · constructor
    · intro _
      simp [hv]
    · intro hok
      simp [hv] at hok

/-- Witness for C1 amended at a concrete accepted transition. -/
theorem C1_witness :
    ("saved" : String) = "applied" ∨ (("saved", "applied")) ∈ SPEC_EDGES :=
  (C1_amended ⟨10, 7, ⟨1, "http://a"⟩, "saved", none, "manual"⟩
    [] "applied" none "").2 rfl

/-- C2: the rejection branch of the claim holds — a rejected call
returns before application.save(), so the row and the log are both
unchanged — but the success branch does not: a successful transition
that actually changes the status appends two ApplicationActivity
records, one from the pre_save receiver fired by application.save()
and one created explicitly by transition itself, not exactly one.
At the concrete saved to applied transition below the call succeeds
and the activity table grows from zero to two records. -/
theorem C2_code_eval :
    ((StatusTracker.transition ⟨10, 7, ⟨1, "http://a"⟩, "saved", none, "manual"⟩
        [] "applied" none "").ok = true)
    ∧ ((StatusTracker.transition ⟨10, 7, ⟨1, "http://a"⟩, "saved", none, "manual"⟩
        [] "applied" none "").activities.length = 2)
    ∧ ((StatusTracker.transition ⟨10, 7, ⟨1, "http://a"⟩, "saved", none, "manual"⟩
        [] "offer" none "").ok = false)
    ∧ ((StatusTracker.transition ⟨10, 7, ⟨1, "http://a"⟩, "saved", none, "manual"⟩
        [] "offer" none "").application
      = ⟨10, 7, ⟨1, "http://a"⟩, "saved", none, "manual"⟩)
    ∧ ((StatusTracker.transition ⟨10, 7, ⟨1, "http://a"⟩, "saved", none, "manual"⟩
        [] "offer" none "").activities = []) := by
  refine ⟨rfl, by decide, rfl, rfl, rfl⟩

/-- C4: the claim says a successful StatusTracker.transition into
applied stamps applied_date, but the source function never touches
that field: at a concrete saved Application with no applied_date the
transition into applied succeeds and applied_date is still unset. -/
theorem C4_counterexample :
    (StatusTracker.transition ⟨10, 7, ⟨1, "http://a"⟩, "saved", none, "manual"⟩
      [] "applied" none "").ok = true
    ∧ (StatusTracker.transition ⟨10, 7, ⟨1, "http://a"⟩, "saved", none, "manual"⟩
      [] "applied" none "").application.applied_date = none := by
  exact ⟨rfl, rfl⟩

/-- C4 amended: StatusTracker.transition never modifies applied_date;
the stamping behaviour lives in ApplicationManager.update_status,
which sets applied_date to the current time exactly when moving to
applied with no date set, never overwrites an already-set date, and
leaves the field alone on every other move. -/
theorem C4_amended (application : Application)
    (acts : List ApplicationActivity) (new_status : String)
    (user : Option Nat) (uid : Nat) (notes : String) (now : Nat) :
    ((StatusTracker.transition application acts new_status user notes).application.applied_date
      = application.applied_date)
    ∧ (new_status = "applied" → application.applied_date = none →
      (ApplicationManager.update_status application acts new_status uid notes now).1.applied_date
        = some now)
    ∧ (∀ d, application.applied_date = some d →
      (ApplicationManager.update_status application acts new_status uid notes now).1.applied_date
        = some d)
    ∧ (new_status ≠ "applied" →
      (ApplicationManager.update_status application acts new_status uid notes now).1.applied_date
        = application.applied_date) := by
  refine ⟨?_, ?_, ?_, ?_⟩
  · unfold StatusTracker.transition
    by_cases hv : is_valid_transition application.status new_status = true <;>
      simp [hv]
  · intro hs hd
    unfold ApplicationManager.update_status
    simp [hs, hd]
  · intro d hd
    unfold ApplicationManager.update_status
    simp [hd]
  · intro hs
    unfold ApplicationManager.update_status
    simp [hs]

/-- Witness for C4 amended: first stamp, preservation of a set date,
and a move that is not into applied, at concrete inputs. -/
theorem C4_witness :
    ((ApplicationManager.update_status
        ⟨10, 7, ⟨1, "http://a"⟩, "saved", none, "manual"⟩
        [] "applied" 1 "" 99).1.applied_date = some 99)
    ∧ ((ApplicationManager.update_status
        ⟨10, 7, ⟨1, "http://a"⟩, "applied", some 42, "manual"⟩
        [] "screening" 1 "" 99).1.applied_date = some 42)
    ∧ ((ApplicationManager.update_status
        ⟨10, 7, ⟨1, "http://a"⟩, "saved", none, "manual"⟩
        [] "withdrawn" 1 "" 99).1.applied_date = none) :=
  ⟨((C4_amended ⟨10, 7, ⟨1, "http://a"⟩, "saved", none, "manual"⟩
      [] "applied" none 1 "" 99).2.1) rfl rfl,
    ((C4_amended ⟨10, 7, ⟨1, "http://a"⟩, "applied", some 42, "manual"⟩
      [] "screening" none 1 "" 99).2.2.1) 42 rfl,
    ((C4_amended ⟨10, 7, ⟨1, "http://a"⟩, "saved", none, "manual"⟩
      [] "withdrawn" none 1 "" 99).2.2.2) (by decide)⟩

/-- C5: over the nine statuses, is_valid_transition agrees exactly
with identity pairs plus the edge table of section 4.1, and the two
terminal statuses have empty outgoing rows, so their only valid move
is to themselves. -/
theorem C5_transition_table :
    (STATUSES.all fun s1 => STATUSES.all fun s2 =>
      is_valid_transition s1 s2 == (s1 == s2 || SPEC_EDGES.contains (s1, s2))) = true
    ∧ VALID_TRANSITIONS "rejected" = []
    ∧ VALID_TRANSITIONS "withdrawn" = [] := by
  refine ⟨by decide, rfl, rfl⟩

/-- C3: at a concrete invocation whose guards all pass and whose
handler returns true, the task reports success but the Application
table is returned exactly as it was given (here empty, and in the
second part holding one saved row that stays saved): no Application
is created, none is transitioned to applied, so no applied_date is
stamped and no activity is logged.  This exhibits the divergence
between the code and step 9 of the spec. -/
theorem C3_code_eval :
    (apply_to_job_task ⟨7, "http://a", "pnet", true, 0, 5, some "cv.pdf", false, some true⟩
        []).result.success = true
    ∧ (apply_to_job_task ⟨7, "http://a", "pnet", true, 0, 5, some "cv.pdf", false, some true⟩
        []).result.message = "Application submitted successfully"
    ∧ (apply_to_job_task ⟨7, "http://a", "pnet", true, 0, 5, some "cv.pdf", false, some true⟩
        []).finalApps = []
    ∧ (apply_to_job_task ⟨7, "http://b", "pnet", true, 0, 5, some "cv.pdf", false, some true⟩
        [⟨10, 7, ⟨1, "http://a"⟩, "saved", none, "manual"⟩]).result.success = true
    ∧ (apply_to_job_task ⟨7, "http://b", "pnet", true, 0, 5, some "cv.pdf", false, some true⟩
        [⟨10, 7, ⟨1, "http://a"⟩, "saved", none, "manual"⟩]).finalApps
      = [⟨10, 7, ⟨1, "http://a"⟩, "saved", none, "manual"⟩] := by
  refine ⟨rfl, by decide, rfl, rfl, rfl⟩

/-- C10: the URL shape of the duplicate check returns false for the
empty string before any row is consulted, whatever the Application
table holds, including rows whose job has an empty job_url. -/
theorem C10_empty_url_never_duplicate (apps : List Application) (user : Nat) :
    check_duplicate apps user (.url "") = false := rfl

/-- The task body never writes the Application table. -/
theorem body_apps_unchanged (env : TaskEnv) (apps : List Application) :
    (apply_to_job_task_body env apps).2 = apps := by
  simp only [apply_to_job_task_body]
  repeat' split
  all_goals rfl

/-- A body attempt that returns a result dict ends the run at once,
whatever retry budget remains. -/
theorem run_finished (env : TaskEnv) (apps apps2 : List Application)
    (r : TaskResult) (b : Nat)
    (h : apply_to_job_task_body env apps = (.finished r b, apps2)) :
    ∀ n, apply_to_job_task_run env apps n = ⟨r, 1, [], b, apps2⟩ := by
  intro n
  cases n with
  | zero => simp [apply_to_job_task_run, h]
  | succ n => simp [apply_to_job_task_run, h]

/-- A body attempt that always raises exhausts the whole retry budget:
n retries give n + 1 attempts, a fixed 60 second delay before each
retry, and the failure dict built from the exception text. -/
theorem run_raised (env : TaskEnv) (apps : List Application)
    (e : String) (b : Nat)
    (h : apply_to_job_task_body env apps = (.raised e b, apps)) :
    ∀ n, apply_to_job_task_run env apps n =
      ⟨⟨false, "Task failed: " ++ e, env.job_url, env.job_board⟩, n + 1,
        List.replicate n 60, (n + 1) * b, apps⟩ := by
  intro n
  induction n with
  | zero => simp [apply_to_job_task_run, h]
  | succ n ih =>
      simp only [apply_to_job_task_run, h, ih, RunOutcome.mk.injEq,
        List.replicate_succ, true_and, and_true]
      ring

/-- C6: with the user resolved, both guards run before any browser
session is opened.  A positive duplicate check ends the task with the
duplication message and zero browser sessions; a clear duplicate
check with the daily count at or above the configured maximum ends
the task citing the limit, again with zero browser sessions — and
since env quantifies over every board identifier and adapter outcome,
independently of adapter availability. -/
theorem C6_guards_before_browser (env : TaskEnv) (apps : List Application)
    (hu : env.userExists = true) :
    (check_duplicate apps env.userId (.url env.job_url) = true →
      (apply_to_job_task env apps).result.success = false
      ∧ (apply_to_job_task env apps).result.message = "Already applied to this job"
      ∧ (apply_to_job_task env apps).browserSessions = 0)
    ∧ (check_duplicate apps env.userId (.url env.job_url) = false →
      env.maxDaily ≤ env.dailyCount →
      (apply_to_job_task env apps).result.success = false
      ∧ (apply_to_job_task env apps).result.message
        = "Daily limit reached (" ++ toString env.maxDaily ++ " applications)"
      ∧ (apply_to_job_task env apps).browserSessions = 0) := by
  constructor
  · intro hdup
    have hb : apply_to_job_task_body env apps =
        (.finished ⟨false, "Already applied to this job", env.job_url, env.job_board⟩ 0,
          apps) := by
      simp [apply_to_job_task_body, hu, hdup]
    rw [apply_to_job_task, run_finished env apps apps _ 0 hb 3]
    exact ⟨rfl, rfl, rfl⟩
  · intro hdup hle
    have hb : apply_to_job_task_body env apps =
        (.finished ⟨false,
          "Daily limit reached (" ++ toString env.maxDaily ++ " applications)",
          env.job_url, env.job_board⟩ 0, apps) := by
      simp [apply_to_job_task_body, hu, hdup, hle]
    rw [apply_to_job_task, run_finished env apps apps _ 0 hb 3]
    exact ⟨rfl, rfl, rfl⟩

/-- Witness for C6: a duplicate invocation and a rate-limited
invocation at concrete inputs. -/
theorem C6_witness :
    ((apply_to_job_task ⟨7, "http://a", "pnet", true, 0, 5, some "cv.pdf", false, some true⟩
        [⟨10, 7, ⟨1, "http://a"⟩, "saved", none, "manual"⟩]).result.message
      = "Already applied to this job")
    ∧ ((apply_to_job_task ⟨7, "http://a", "gumtree", true, 5, 5, none, false, none⟩
        []).result.message
      = "Daily limit reached (" ++ toString 5 ++ " applications)") :=
  ⟨((C6_guards_before_browser
      ⟨7, "http://a", "pnet", true, 0, 5, some "cv.pdf", false, some true⟩
      [⟨10, 7, ⟨1, "http://a"⟩, "saved", none, "manual"⟩] rfl).1 rfl).2.1,
    ((C6_guards_before_browser
      ⟨7, "http://a", "gumtree", true, 5, 5, none, false, none⟩
      [] rfl).2 rfl (by decide)).2.1⟩

/-- C7: a body attempt that returns a result dict — every guard abort
and every adapter verdict, true or false — ends the task at the first
attempt with no retry and no backoff delay; a body attempt that lets
an unexpected exception escape is retried with a fixed 60 second
delay until the budget of 3 retries is exhausted, after which the
task reports failure, for 4 attempts in total. -/
theorem C7_retry_policy (env : TaskEnv) (apps : List Application) :
    (∀ r b apps2, apply_to_job_task_body env apps = (.finished r b, apps2) →
      (apply_to_job_task env apps).result = r
      ∧ (apply_to_job_task env apps).attempts = 1
      ∧ (apply_to_job_task env apps).delays = [])
    ∧ (∀ e b apps2, apply_to_job_task_body env apps = (.raised e b, apps2) →
      (apply_to_job_task env apps).attempts = 4
      ∧ (apply_to_job_task env apps).delays = [60, 60, 60]
      ∧ (apply_to_job_task env apps).result.success = false
      ∧ (apply_to_job_task env apps).result.message = "Task failed: " ++ e) := by
  constructor
  · intro r b apps2 h
    rw [apply_to_job_task, run_finished env apps apps2 r b h 3]
    exact ⟨rfl, rfl, rfl⟩
  · intro e b apps2 h
    have ha : apps2 = apps := by
      have := body_apps_unchanged env apps
      rw [h] at this
      exact this
    rw [ha] at h
    rw [apply_to_job_task, run_raised env apps e b h 3]
    exact ⟨rfl, rfl, rfl, rfl⟩

/-- Witness for C7: a terminal guard abort is not retried, and an
invocation whose automation step raises is retried to exhaustion. -/
theorem C7_witness :
    ((apply_to_job_task ⟨7, "http://a", "pnet", true, 5, 5, some "cv.pdf", false, some true⟩
        []).attempts = 1)
    ∧ ((apply_to_job_task ⟨7, "http://a", "pnet", true, 0, 5, some "cv.pdf", false, none⟩
        []).attempts = 4
      ∧ (apply_to_job_task ⟨7, "http://a", "pnet", true, 0, 5, some "cv.pdf", false, none⟩
        []).delays = [60, 60, 60]) :=
  ⟨(((C7_retry_policy ⟨7, "http://a", "pnet", true, 5, 5, some "cv.pdf", false, some true⟩
      []).1 ⟨false, "Daily limit reached (" ++ toString 5 ++ " applications)",
        "http://a", "pnet"⟩ 0 [] rfl).2.1),
    (((C7_retry_policy ⟨7, "http://a", "pnet", true, 0, 5, some "cv.pdf", false, none⟩
      []).2 "exception" 1 [] rfl).1),
    (((C7_retry_policy ⟨7, "http://a", "pnet", true, 0, 5, some "cv.pdf", false, none⟩
      []).2 "exception" 1 [] rfl).2.1)⟩

/-- C8: the claimed symmetry between the two shapes of the duplicate
check fails on the code in two ways.  First, for a held Application
whose job has an empty job_url, the Job-object shape reports true but
the URL shape reports false, because the URL shape rejects the empty
string before consulting any row.  Second, a different Job sharing
the URL of an applied job is reported as a duplicate by the URL
shape, although the claim promises false for a different job. -/
theorem C8_counterexample :
    (check_duplicate [⟨10, 7, ⟨2, ""⟩, "saved", none, "manual"⟩] 7
      (.jobObj ⟨2, ""⟩) = true)
    ∧ (check_duplicate [⟨10, 7, ⟨2, ""⟩, "saved", none, "manual"⟩] 7
      (.url "") = false)
    ∧ (check_duplicate [⟨11, 7, ⟨1, "http://x"⟩, "saved", none, "manual"⟩] 7
      (.jobObj ⟨3, "http://x"⟩) = false)
    ∧ (check_duplicate [⟨11, 7, ⟨1, "http://x"⟩, "saved", none, "manual"⟩] 7
      (.url "http://x") = true) := by
  refine ⟨by decide, by decide, by decide, by decide⟩

/-- C8 amended: for a user holding an Application for a job, the
Job-object shape reports true, and the URL shape reports true
provided the job URL is nonempty; a job the user has not applied to
is reported false by the Job-object shape, and false by the URL shape
provided its URL differs from the URL of every job the user applied
to (an empty URL in particular is never reported as a duplicate). -/
theorem C8_amended (apps : List Application) (user : Nat)
    (a : Application) (j2 : Job) (ha : a ∈ apps) (hu : a.userId = user) :
    (check_duplicate apps user (.jobObj a.job) = true)
    ∧ (a.job.job_url ≠ "" → check_duplicate apps user (.url a.job.job_url) = true)
    ∧ ((∀ b2 ∈ apps, b2.userId = user → b2.job.jobId ≠ j2.jobId) →
        check_duplicate apps user (.jobObj j2) = false)
    ∧ ((∀ b2 ∈ apps, b2.userId = user → b2.job.job_url ≠ j2.job_url) →
        check_duplicate apps user (.url j2.job_url) = false) := by
  refine ⟨?_, ?_, ?_, ?_⟩
  · simp only [check_duplicate, List.any_eq_true]
    exact ⟨a, ha, by simp [hu]⟩
  · intro hne
    simp only [check_duplicate]
    rw [if_neg hne, List.any_eq_true]
    exact ⟨a, ha, by simp [hu]⟩
  · intro hall
    simp only [check_duplicate]
    rw [List.any_eq_false]
    intro b2 hb2
    simp only [Bool.and_eq_true, beq_iff_eq, not_and]
    intro h1 h2
    exact hall b2 hb2 h1 h2
  · intro hall
    simp only [check_duplicate]
    split
    · rfl
    · rw [List.any_eq_false]
      intro b2 hb2
      simp only [Bool.and_eq_true, beq_iff_eq, not_and]
      intro h1 h2
      exact hall b2 hb2 h1 h2

/-- Witness for C8 amended at a concrete Application table. -/
theorem C8_witness :
    (check_duplicate [⟨11, 7, ⟨1, "http://x"⟩, "saved", none, "manual"⟩] 7
      (.jobObj ⟨1, "http://x"⟩) = true)
    ∧ (check_duplicate [⟨11, 7, ⟨1, "http://x"⟩, "saved", none, "manual"⟩] 7
      (.url "http://x") = true)
    ∧ (check_duplicate [⟨11, 7, ⟨1, "http://x"⟩, "saved", none, "manual"⟩] 7
      (.jobObj ⟨9, "http://y"⟩) = false)
    ∧ (check_duplicate [⟨11, 7, ⟨1, "http://x"⟩, "saved", none, "manual"⟩] 7
      (.url "http://y") = false) :=
  ⟨(C8_amended [⟨11, 7, ⟨1, "http://x"⟩, "saved", none, "manual"⟩] 7
      ⟨11, 7, ⟨1, "http://x"⟩, "saved", none, "manual"⟩ ⟨9, "http://y"⟩
      (by simp) rfl).1,
    (C8_amended [⟨11, 7, ⟨1, "http://x"⟩, "saved", none, "manual"⟩] 7
      ⟨11, 7, ⟨1, "http://x"⟩, "saved", none, "manual"⟩ ⟨9, "http://y"⟩
      (by simp) rfl).2.1 (by decide),
    (C8_amended [⟨11, 7, ⟨1, "http://x"⟩, "saved", none, "manual"⟩] 7
      ⟨11, 7, ⟨1, "http://x"⟩, "saved", none, "manual"⟩ ⟨9, "http://y"⟩
      (by simp) rfl).2.2.1 (by decide),
    (C8_amended [⟨11, 7, ⟨1, "http://x"⟩, "saved", none, "manual"⟩] 7
      ⟨11, 7, ⟨1, "http://x"⟩, "saved", none, "manual"⟩ ⟨9, "http://y"⟩
      (by simp) rfl).2.2.2 (by decide)⟩

/-- When the marker stays visible at every poll instant below the
timeout, the polling loop runs the clock out and reports failure. -/
theorem waitLoop_all_present (present : Nat → Bool) (timeout : Nat) :
    ∀ (fuel elapsed : Nat), timeout - elapsed ≤ fuel →
    (∀ j, elapsed + 2 * j < timeout → present (elapsed + 2 * j) = true) →
    (waitLoop present timeout elapsed).1 = false := by
  intro fuel
  induction fuel with
  | zero =>
      intro elapsed hle h
      rw [waitLoop.eq_def, dif_neg (by omega)]
  | succ fuel ih =>
      intro elapsed hle h
      rw [waitLoop.eq_def]
      by_cases hlt : elapsed < timeout
      · rw [dif_pos hlt]
        have hp : present elapsed = true := by
          have h0 := h 0 (by omega)
          simpa using h0
        rw [hp, if_neg (by decide)]
        apply ih (elapsed + 2) (by omega)
        intro j hj
        have h2 := h (j + 1) (by omega)
        have e : elapsed + 2 * (j + 1) = elapsed + 2 + 2 * j := by ring
        rw [e] at h2
        exact h2
      · rw [dif_neg hlt]

/-- The polling loop returns success at the first poll instant where
the marker is gone, with the elapsed clock at that instant. -/
theorem waitLoop_first_clear (present : Nat → Bool) (timeout : Nat) :
    ∀ (k elapsed : Nat), elapsed + 2 * k < timeout →
    present (elapsed + 2 * k) = false →
    (∀ j, j < k → present (elapsed + 2 * j) = true) →
    waitLoop present timeout elapsed = (true, elapsed + 2 * k) := by
  intro k
  induction k with
  | zero =>
      intro elapsed hlt hp _
      have e : elapsed + 2 * 0 = elapsed := by ring
      rw [e] at hlt hp ⊢
      rw [waitLoop.eq_def, dif_pos hlt, if_pos hp]
  | succ k ih =>
      intro elapsed hlt hp hall
      have hp0 : present elapsed = true := by
        have h0 := hall 0 (Nat.succ_pos k)
        simpa using h0
      have hlt0 : elapsed < timeout := by omega
      rw [waitLoop.eq_def, dif_pos hlt0, hp0, if_neg (by decide)]
      have e : elapsed + 2 * (k + 1) = elapsed + 2 + 2 * k := by ring
      rw [e] at hlt hp ⊢
      apply ih (elapsed + 2) hlt hp
      intro j hj
      have h2 := hall (j + 1) (by omega)
      have e2 : elapsed + 2 * (j + 1) = elapsed + 2 + 2 * j := by ring
      rw [e2] at h2
      exact h2

/-- C9: with no visible marker on entry the manual-resolution wait
succeeds immediately, at elapsed time zero, without sleeping; with a
marker present it polls every two seconds: if the marker is still
there at every poll instant before the timeout the wait fails, and if
the marker first disappears at poll instant 2k inside the window the
wait succeeds exactly then. -/
theorem C9_wait_for_manual_solve (present : Nat → Bool) (timeout k : Nat) :
    (present 0 = false → wait_for_manual_solve present timeout = (true, 0))
    ∧ (present 0 = true →
        (∀ j, 2 * j < timeout → present (2 * j) = true) →
        (wait_for_manual_solve present timeout).1 = false)
    ∧ (2 * k < timeout → present (2 * k) = false →
        (∀ j, j < k → present (2 * j) = true) →
        wait_for_manual_solve present timeout = (true, 2 * k)) := by
  refine ⟨?_, ?_, ?_⟩
  · intro h0
    rw [wait_for_manual_solve, if_pos h0]
  · intro h0 hall
    rw [wait_for_manual_solve, if_neg (by simp [h0])]
    apply waitLoop_all_present present timeout timeout 0 (by omega)
    intro j hj
    simpa using hall j (by simpa using hj)
  · intro hlt hp hall
    by_cases h0 : present 0 = false
    · rcases Nat.eq_zero_or_pos k with hk | hk
      · subst hk
        rw [wait_for_manual_solve, if_pos h0]
      · have := hall 0 hk
        simp only [Nat.mul_zero] at this
        rw [h0] at this
        exact nomatch this
    · rw [wait_for_manual_solve, if_neg h0]
      have := waitLoop_first_clear present timeout k 0 (by omega) (by simpa using hp) ?_
      · simpa using this
      · intro j hj
        simpa using hall j hj

/-- Witness for C9: an empty page succeeds at once, a page whose
marker never clears fails at the timeout, and a marker that clears
before the third poll yields success at elapsed time six. -/
theorem C9_witness :
    (wait_for_manual_solve (fun _ => false) 120 = (true, 0))
    ∧ ((wait_for_manual_solve (fun _ => true) 7).1 = false)
    ∧ (wait_for_manual_solve (fun t => decide (t < 5)) 120 = (true, 2 * 3)) :=
  ⟨(C9_wait_for_manual_solve (fun _ => false) 120 0).1 rfl,
    (C9_wait_for_manual_solve (fun _ => true) 7 0).2.1 rfl (fun _ _ => rfl),
    (C9_wait_for_manual_solve (fun t => decide (t < 5)) 120 3).2.2
      (by decide) (by decide) (by decide)⟩

end JobTrack
